import Mathlib

/-!
Shallow embedding of the AI-services routes module
(`src/ai-services/src/api/routes.py`): the function-signature extractor and
test-scaffold renderer behind `POST /ai/generate-tests`, and the failure
classifier behind `POST /ai/analyze-failures`.

Python string primitives (`in`, `split`, `strip`, `lower`, slicing) are
embedded as executable functions over `List Char` with Python semantics.
-/

/-- Python `sep in s` over character lists: `pat` occurs as a contiguous
sublist (the empty pattern occurs in every string). -/
def containsList (pat : List Char) : List Char → Bool
  | [] => pat.isEmpty
  | c :: rest => pat.isPrefixOf (c :: rest) || containsList pat rest

/-- Python `s.split(sep)` over character lists, fuelled to make the
recursion structural: scans left to right, cutting at every
non-overlapping occurrence of `sep`.  The fuel is always instantiated
with the length of the scanned list, which suffices. -/
def splitOnFuel (sep : List Char) : Nat → List Char → List (List Char)
  | _, [] => [[]]
  | 0, l => [l]
  | fuel + 1, c :: rest =>
    if sep.isPrefixOf (c :: rest) && !sep.isEmpty then
      [] :: splitOnFuel sep fuel (rest.drop (sep.length - 1))
    else
      match splitOnFuel sep fuel rest with
      | [] => [[c]]
      | part :: parts => (c :: part) :: parts

/-- Python `s.split(sep)` for a non-empty separator. -/
def pySplit (s sep : String) : List String :=
  (splitOnFuel sep.data s.data.length s.data).map fun l => ⟨l⟩

/-- Python `pat in s`. -/
def pyIn (pat s : String) : Bool := containsList pat.data s.data

/-- Python `s.strip()`: drop whitespace from both ends. -/
def pyStrip (s : String) : String :=
  ⟨((s.data.dropWhile Char.isWhitespace).reverse.dropWhile Char.isWhitespace).reverse⟩

/-- Python `s.lower()` (ASCII case folding, which covers every string the
routes module lowercases). -/
def pyLower (s : String) : String := ⟨s.data.map Char.toLower⟩

/-- Python `s[:n]`. -/
def pyTake (s : String) (n : Nat) : String := ⟨s.data.take n⟩

/-- The web-scripting language tags recognised by the extractor
(`routes.py` line 86). -/
def webLangs : List String := ["javascript", "typescript", "jsx", "tsx"]

/-- The per-line body of the extraction loop of `generate_tests`
(`routes.py` lines 85-100): strip the line, look for `function`, else for
`const` together with `=>`, and cut the candidate name out with `split`. -/
def lineCandidate (rawLine : String) : Option String :=
  let line := pyStrip rawLine
  if pyIn "function" line || (pyIn "const" line && pyIn "=>" line) then
    if pyIn "function" line then
      let parts := pySplit line "function"
      if parts.length > 1 then
        let name := pyStrip ((pySplit (pyStrip (parts.getD 1 "")) "(").getD 0 "")
        if name ≠ "" then some name else none
      else none
    else if pyIn "const" line then
      let parts := pySplit line "const"
      if parts.length > 1 then
        let name := pyStrip ((pySplit (pyStrip (parts.getD 1 "")) "=").getD 0 "")
        if name ≠ "" then some name else none
      else none
    else none
  else none

/-- The function-name extraction pass of `generate_tests`
(`routes.py` lines 81-100): split the code into lines and run the loop
body on each line; the language gate sits inside the loop as in the
source. -/
def extract (code language : String) : List String :=
  (pySplit code "\n").filterMap fun rawLine =>
    if pyLower language ∈ webLangs then lineCandidate rawLine else none

/-- Substring of `s` strictly after the first occurrence of `pat`
(`[]` when `pat` does not occur).  Spec-side helper used to state the
claims about "the substring after the first occurrence". -/
def afterFirstList (pat : List Char) : List Char → List Char
  | [] => []
  | c :: rest =>
    if pat.isPrefixOf (c :: rest) then (c :: rest).drop pat.length
    else afterFirstList pat rest

/-- Substring of `s` after the first occurrence of `pat`. -/
def afterFirst (s pat : String) : String := ⟨afterFirstList pat.data s.data⟩

/-- Substring of `s` before the first occurrence of `pat` (all of `s`
when `pat` does not occur). -/
def beforeFirst (s pat : String) : String := (pySplit s pat).getD 0 ""

/-- `GeneratedTest` (`routes.py` lines 43-48). -/
structure GeneratedTest where
  fileName : String
  testCode : String
  description : String
  framework : String
  deriving DecidableEq

/-- `GenerateTestsResponse` (`routes.py` lines 50-54). -/
structure GenerateTestsResponse where
  tests : List GeneratedTest
  totalTests : Nat
  language : String
  framework : String
  deriving DecidableEq

/-- `GenerateTestsRequest` (`routes.py` lines 35-40): `framework` is an
optional string defaulting to `"Jest"`, so an explicit JSON `null`
overrides the default with `none`. -/
structure GenerateTestsRequest where
  code : String
  language : String
  framework : Option String := some "Jest"
  testType : Option String := some "UNIT"
  description : Option String := none
  deriving DecidableEq

/-- The Jest per-candidate scaffold body (`routes.py` lines 107-130). -/
def testCodeFor (name : String) : String :=
  "import \x7b " ++ name ++ " \x7d from \x27./source\x27;\n\ndescribe(\x27" ++ name
    ++ "\x27, () => \x7b\n  it(\x27should work correctly with valid input\x27, () => \x7b\n    // Arrange\n    const input = /* TODO: Add test input */;\n\n    // Act\n    const result = "
    ++ name
    ++ "(input);\n\n    // Assert\n    expect(result).toBeDefined();\n    // TODO: Add specific assertions\n  \x7d);\n\n  it(\x27should handle edge cases\x27, () => \x7b\n    // TODO: Add edge case tests\n  \x7d);\n\n  it(\x27should handle invalid input\x27, () => \x7b\n    // TODO: Add error handling tests\n  \x7d);\n\x7d);\n"

/-- One per-candidate `GeneratedTest` (`routes.py` lines 131-136). -/
def renderJestTest (name language framework : String) : GeneratedTest :=
  { fileName := name ++ ".test." ++ language
    testCode := testCodeFor name
    description := "Generated unit tests for " ++ name ++ " function"
    framework := framework }

/-- The generic scaffold body (`routes.py` lines 140-159); note the
framework tag is lowercased into the import line. -/
def genericTestCode (framework : String) : String :=
  "import \x7b describe, it, expect \x7d from \x27" ++ pyLower framework
    ++ "\x27;\n\ndescribe(\x27Generated Test Suite\x27, () => \x7b\n  it(\x27should pass basic test\x27, () => \x7b\n    // Arrange\n    const expected = true;\n\n    // Act\n    const result = expected;\n\n    // Assert\n    expect(result).toBe(expected);\n  \x7d);\n\n  it(\x27should test functionality\x27, () => \x7b\n    // TODO: Add your test implementation\n    expect(true).toBe(true);\n  \x7d);\n\x7d);\n"

/-- The generic-template `GeneratedTest` (`routes.py` lines 160-165). -/
def genericTest (language framework : String) : GeneratedTest :=
  { fileName := "generated.test." ++ language
    testCode := genericTestCode framework
    description := "Generic test template - customize for your needs"
    framework := framework }

/-- Message of the `AttributeError` that `request.framework.lower()`
raises in the generic branch when `framework` is JSON `null`. -/
def noneLowerError : String := "\x27NoneType\x27 object has no attribute \x27lower\x27"

/-- The rendering half of `generate_tests` (`routes.py` lines 102-175):
per-candidate Jest scaffolds capped at the first 5 candidates, the
generic template when no test was produced, and the `except` handler
that converts any exception into the 500 detail string.  With
`framework = none` the Jest branch is skipped, so `tests` is empty and
the generic branch evaluates `None.lower()`, which raises. -/
def render (candidates : List String) (language : String) (framework : Option String) :
    Except String GenerateTestsResponse :=
  let tests :=
    if framework = some "Jest" then
      (candidates.take 5).map fun name => renderJestTest name language "Jest"
    else []
  if tests.isEmpty then
    match framework with
    | some fw =>
        Except.ok { tests := [genericTest language fw], totalTests := 1,
                    language := language, framework := fw }
    | none => Except.error ("Test generation failed: " ++ noneLowerError)
  else
    match framework with
    | some fw =>
        Except.ok { tests := tests, totalTests := tests.length,
                    language := language, framework := fw }
    | none =>
        -- unreachable: `tests` is nonempty only when `framework = some "Jest"`
        Except.error ("Test generation failed: " ++ noneLowerError)

/-- `generate_tests` (`routes.py` lines 72-175): extraction followed by
rendering. -/
def generate_tests (request : GenerateTestsRequest) : Except String GenerateTestsResponse :=
  render (extract request.code request.language) request.language request.framework

/-- `AnalyzeFailuresResponse` (`routes.py` lines 63-67). -/
structure AnalyzeFailuresResponse where
  analysis : String
  suggestedFixes : List String
  rootCause : String
  severity : String
  deriving DecidableEq

/-- `analyze_failures` (`routes.py` lines 180-229).  The Python default
`request.errorMessage or "Unknown error"` also replaces the *empty*
string, because `""` is falsy. -/
def classify (errorMessage : Option String) : AnalyzeFailuresResponse :=
  let error_message :=
    match errorMessage with
    | none => "Unknown error"
    | some s => if s = "" then "Unknown error" else s
  let analysis := "Analysis of test failure: " ++ pyTake error_message 200
  if pyIn "undefined" (pyLower error_message) then
    { analysis := analysis
      suggestedFixes := ["Check if all variables are properly defined before use",
        "Verify function imports are correct",
        "Ensure dependencies are installed"]
      rootCause := "Undefined variable or function"
      severity := "high" }
  else if pyIn "timeout" (pyLower error_message) then
    { analysis := analysis
      suggestedFixes := ["Increase test timeout value",
        "Check for infinite loops or blocking operations",
        "Verify async operations are properly awaited"]
      rootCause := "Test timeout"
      severity := "medium" }
  else if pyIn "assertion" (pyLower error_message) || pyIn "expected" (pyLower error_message) then
    { analysis := analysis
      suggestedFixes := ["Review expected vs actual values",
        "Check test data setup",
        "Verify function logic matches test expectations"]
      rootCause := "Assertion failure"
      severity := "medium" }
  else
    { analysis := analysis
      suggestedFixes := ["Review error message and stack trace",
        "Check test setup and teardown",
        "Verify test data and mocks are correct"]
      rootCause := "Unknown"
      severity := "medium" }

theorem splitOnFuel_ne_nil (sep : List Char) : ∀ fuel l, splitOnFuel sep fuel l ≠ [] := by
  intro fuel
  induction fuel with
  | zero => intro l; cases l <;> simp [splitOnFuel]
  | succ n ih =>
    intro l
    cases l with
    | nil => simp [splitOnFuel]
    | cons c rest =>
      simp only [splitOnFuel]
      split
      · simp
      · cases h : splitOnFuel sep n rest <;> simp

theorem splitOnFuel_of_not_contains (sep : List Char) :
    ∀ fuel l, l.length ≤ fuel → containsList sep l = false → splitOnFuel sep fuel l = [l] := by
  intro fuel
  induction fuel with
  | zero =>
    intro l hl _
    cases l with
    | nil => simp [splitOnFuel]
    | cons c rest => simp at hl
  | succ n ih =>
    intro l hl hc
    cases l with
    | nil => simp [splitOnFuel]
    | cons c rest =>
      simp only [containsList, Bool.or_eq_false_iff] at hc
      obtain ⟨h1, h2⟩ := hc
      simp only [splitOnFuel]
      rw [if_neg (by simp [h1])]
      rw [ih rest (by simp at hl; omega) h2]

theorem splitOnFuel_length_ge_two (sep : List Char) (hsep : sep ≠ []) :
    ∀ fuel l, l.length ≤ fuel → containsList sep l = true → 2 ≤ (splitOnFuel sep fuel l).length := by
  intro fuel
  induction fuel with
  | zero =>
    intro l hl hc
    cases l with
    | nil => simp [containsList, List.isEmpty_iff] at hc; exact absurd hc hsep
    | cons c rest => simp at hl
  | succ n ih =>
    intro l hl hc
    cases l with
    | nil => simp [containsList, List.isEmpty_iff] at hc; exact absurd hc hsep
    | cons c rest =>
      simp only [splitOnFuel]
      by_cases hp : (sep.isPrefixOf (c :: rest) && !sep.isEmpty) = true
      · rw [if_pos hp]
        have hne := splitOnFuel_ne_nil sep n (rest.drop (sep.length - 1))
        have hpos : 0 < (splitOnFuel sep n (rest.drop (sep.length - 1))).length :=
          List.length_pos.mpr hne
        simp only [List.length_cons]
        omega
      · rw [if_neg hp]
        have hnp : sep.isPrefixOf (c :: rest) = false := by
          cases hpf : sep.isPrefixOf (c :: rest)
          · rfl
          · exact absurd (by simp [hpf, List.isEmpty_iff, hsep]) hp
        have hcr : containsList sep rest = true := by
          simpa [containsList, hnp] using hc
        have h2 := ih rest (by simp at hl; omega) hcr
        cases hsp : splitOnFuel sep n rest with
        | nil => exact absurd hsp (splitOnFuel_ne_nil sep n rest)
        | cons part parts =>
          rw [hsp] at h2
          simp only [List.length_cons] at h2 ⊢
          omega

theorem pySplit_ne_nil (s sep : String) : pySplit s sep ≠ [] := by
  simp only [pySplit, ne_eq, List.map_eq_nil_iff]
  exact splitOnFuel_ne_nil _ _ _

theorem pySplit_single (s sep : String) (h : pyIn sep s = false) : pySplit s sep = [s] := by
  unfold pySplit
  rw [splitOnFuel_of_not_contains sep.data s.data.length s.data le_rfl h]
  rfl

theorem pySplit_len_gt_one (s sep : String) (hsep : sep ≠ "") (h : pyIn sep s = true) :
    1 < (pySplit s sep).length := by
  unfold pySplit
  rw [List.length_map]
  have hd : sep.data ≠ [] := by
    intro hd
    apply hsep
    cases sep with
    | mk l => simp only [String.data] at hd; subst hd; rfl
  exact splitOnFuel_length_ge_two sep.data hd s.data.length s.data le_rfl h

theorem extract_single_line (line lang : String) (hweb : pyLower lang ∈ webLangs)
    (hnl : pyIn "\n" line = false) :
    extract line lang = (lineCandidate line).toList := by
  unfold extract
  rw [pySplit_single line "\n" hnl]
  simp only [List.filterMap_cons, List.filterMap_nil, if_pos hweb]
  cases lineCandidate line <;> simp

/-- Claim C1 (amended): for every source line (after trimming) that contains
`function`, under a web-scripting language tag, the extractor emits exactly
the candidate obtained by taking the segment of the trimmed line between the
first and second occurrences of `function` (Python `split` field 1), trimming
it, then taking the substring before the first `(`, then trimming; it emits
that string if and only if it is non-empty. -/
theorem extract_function_line (line lang : String) (hweb : pyLower lang ∈ webLangs)
    (hnl : pyIn "\n" line = false) (hf : pyIn "function" (pyStrip line) = true) :
    extract line lang =
      (let name := pyStrip (beforeFirst (pyStrip ((pySplit (pyStrip line) "function").getD 1 "")) "(")
       if name = "" then [] else [name]) := by
  rw [extract_single_line line lang hweb hnl]
  have hlen : (pySplit (pyStrip line) "function").length > 1 :=
    pySplit_len_gt_one _ _ (by decide) hf
  simp only [lineCandidate, beforeFirst, hf, Bool.true_or, if_true, if_pos hlen]
  split <;> simp_all

/-- Witness for `extract_function_line` at the example line given in the spec. -/
theorem extract_function_line_witness :
    extract "function foo(x) \x7b return x \x7d" "javascript" = ["foo"] := by
  have h := extract_function_line "function foo(x) \x7b return x \x7d" "javascript"
    (by decide) (by decide) (by decide)
  rw [h]
  decide

/-- Claim C1 as stated is false: on the line `function functionName()` the
recipe of the claim (substring after the FIRST occurrence of `function`, then
before the first `(`, then trimmed) yields the non-empty candidate
`functionName`, yet the extractor emits nothing, because Python
`split` on `function` keeps, in field 1, only the segment reaching to the second occurrence of the
keyword (here, the one inside `functionName`). -/
theorem extract_function_first_occurrence_cex :
    pyStrip (beforeFirst (afterFirst (pyStrip "function functionName()") "function") "(")
        = "functionName"
      ∧ extract "function functionName()" "javascript" = [] := by
  constructor
  · decide
  · decide

/-- Claim C5 (amended): for every trimmed source line that does not contain
`function` but contains both `const` and `=>`, under a web-scripting language
tag, the extractor emits the candidate obtained by taking the segment of the
trimmed line between the first and second occurrences of `const` (Python
`split` field 1), trimming it, then taking the substring before the first
`=`, then trimming, if and only if that string is non-empty. -/
theorem extract_const_arrow_line (line lang : String) (hweb : pyLower lang ∈ webLangs)
    (hnl : pyIn "\n" line = false) (hnof : pyIn "function" (pyStrip line) = false)
    (hc : pyIn "const" (pyStrip line) = true) (ha : pyIn "=>" (pyStrip line) = true) :
    extract line lang =
      (let name := pyStrip (beforeFirst (pyStrip ((pySplit (pyStrip line) "const").getD 1 "")) "=")
       if name = "" then [] else [name]) := by
  rw [extract_single_line line lang hweb hnl]
  have hlen : (pySplit (pyStrip line) "const").length > 1 :=
    pySplit_len_gt_one _ _ (by decide) hc
  simp only [lineCandidate, beforeFirst, hnof, hc, ha, Bool.false_or, Bool.and_self,
    Bool.false_eq_true, if_false, if_true, if_pos hlen]
  split <;> simp_all

/-- Witness for `extract_const_arrow_line` at the example line given in the spec. -/
theorem extract_const_arrow_line_witness :
    extract "const bar = (x) => x + 1" "javascript" = ["bar"] := by
  have h := extract_const_arrow_line "const bar = (x) => x + 1" "javascript"
    (by decide) (by decide) (by decide) (by decide) (by decide)
  rw [h]
  decide

/-- Claim C5 as stated is false: on the line `const constant = (x) => x + 1`
the recipe of the claim (substring after `const`, then before the first `=`, then
trimmed) yields the non-empty candidate `constant`, yet the extractor emits
nothing, because Python `split` on `const` keeps, in field 1, only the segment reaching to the second
occurrence of the keyword (here, the one inside `constant`). -/
theorem extract_const_first_occurrence_cex :
    pyStrip (beforeFirst (afterFirst (pyStrip "const constant = (x) => x + 1") "const") "=")
        = "constant"
      ∧ extract "const constant = (x) => x + 1" "javascript" = [] := by
  constructor
  · decide
  · decide

/-- Claim C6: for every language tag that is not case-insensitively one of
javascript, typescript, jsx, tsx, the extractor returns no candidates,
whatever the source text. -/
theorem extract_non_web_lang (code lang : String) (h : pyLower lang ∉ webLangs) :
    extract code lang = [] := by
  unfold extract
  rw [List.filterMap_eq_nil_iff]
  intro a _
  rw [if_neg h]

/-- Witness for `extract_non_web_lang`: a Python tag with source that would
match the web-scripting heuristics. -/
theorem extract_non_web_lang_witness :
    extract "function foo(x)\nconst bar = (x) => x + 1" "python" = [] :=
  extract_non_web_lang "function foo(x)\nconst bar = (x) => x + 1" "python" (by decide)

/-- Claim C3: the renderer uses only the first 5 candidates — the response
never carries more than 5 entries, `totalTests` always equals the number of
entries, under Jest a non-empty candidate list yields exactly the scaffolds
of the first 5 candidates, and 7 Jest candidates yield exactly 5 entries with
`totalTests = 5`. -/
theorem render_cap_five (cands : List String) (lang fw : String) :
    ∃ r, render cands lang (some fw) = Except.ok r
      ∧ r.tests.length ≤ 5
      ∧ r.totalTests = r.tests.length
      ∧ (fw = "Jest" → cands ≠ [] →
          r.tests = (cands.take 5).map fun n => renderJestTest n lang "Jest")
      ∧ (fw = "Jest" → cands.length = 7 → r.tests.length = 5 ∧ r.totalTests = 5) := by
  by_cases hj : fw = "Jest"
  · subst hj
    cases cands with
    | nil =>
      refine ⟨⟨[genericTest lang "Jest"], 1, lang, "Jest"⟩, ?_, ?_, ?_, ?_, ?_⟩
      · simp [render]
      · simp
      · simp
      · intro _ h; exact absurd rfl h
      · intro _ h; simp at h
    | cons c cs =>
      refine ⟨⟨((c :: cs).take 5).map fun n => renderJestTest n lang "Jest",
          (((c :: cs).take 5).map fun n => renderJestTest n lang "Jest").length,
          lang, "Jest"⟩, ?_, ?_, ?_, ?_, ?_⟩
      · simp [render]
      · simp [List.length_take]
      · rfl
      · intro _ _; rfl
      · intro _ hlen
        simp only [List.length_cons] at hlen
        refine ⟨?_, ?_⟩ <;> simp [List.length_take, hlen] <;> omega
  · refine ⟨⟨[genericTest lang fw], 1, lang, fw⟩, ?_, ?_, ?_, ?_, ?_⟩
    · simp [render, hj]
    · simp
    · simp
    · intro h; exact absurd h hj
    · intro h; exact absurd h hj

/-- Witness for `render_cap_five`: 7 Jest candidates give exactly 5 tests. -/
theorem render_cap_five_witness :
    ∃ r, render ["a", "b", "c", "d", "e", "f", "g"] "javascript" (some "Jest") = Except.ok r
      ∧ r.tests.length = 5 ∧ r.totalTests = 5 := by
  obtain ⟨r, h1, _, _, _, h5⟩ :=
    render_cap_five ["a", "b", "c", "d", "e", "f", "g"] "javascript" "Jest"
  exact ⟨r, h1, h5 rfl rfl⟩

/-- Claim C4: whenever no per-candidate test is produced — the candidate
list is empty, or the framework tag is a string other than `"Jest"` — the
renderer returns exactly one generic scaffold named
`generated.test.<languageTag>` and `totalTests = 1`. -/
theorem render_generic_scaffold (cands : List String) (lang fw : String)
    (h : cands = [] ∨ fw ≠ "Jest") :
    render cands lang (some fw) =
        Except.ok { tests := [genericTest lang fw], totalTests := 1,
                    language := lang, framework := fw }
      ∧ (genericTest lang fw).fileName = "generated.test." ++ lang := by
  refine ⟨?_, rfl⟩
  have htests :
      (if (some fw : Option String) = some "Jest" then
        (cands.take 5).map fun n => renderJestTest n lang "Jest"
      else []) = [] := by
    rcases h with h | h
    · subst h; split <;> simp
    · rw [if_neg (by simp [h])]
  simp only [render, htests, List.isEmpty_nil, if_true]

/-- Witness for `render_generic_scaffold`: a non-Jest framework with a
non-empty candidate list still yields only the generic template. -/
theorem render_generic_scaffold_witness :
    render ["add"] "typescript" (some "Mocha") =
        Except.ok { tests := [genericTest "typescript" "Mocha"], totalTests := 1,
                    language := "typescript", framework := "Mocha" }
      ∧ (genericTest "typescript" "Mocha").fileName = "generated.test." ++ "typescript" :=
  render_generic_scaffold ["add"] "typescript" "Mocha" (Or.inr (by decide))

/-- Claim C10: a request whose framework field is explicitly `none`
(JSON `null`, overriding the `"Jest"` default) never yields a
`GenerateTestsResponse`: the Jest branch is skipped, the generic branch
lowercases the absent tag and raises, and the handler returns the
internal-error detail prefixed `Test generation failed: `. -/
theorem generate_tests_framework_none (req : GenerateTestsRequest)
    (h : req.framework = none) :
    generate_tests req = Except.error ("Test generation failed: " ++ noneLowerError) := by
  unfold generate_tests render
  rw [h]
  simp

/-- Witness for `generate_tests_framework_none`. -/
theorem generate_tests_framework_none_witness :
    generate_tests { code := "function foo(x)", language := "javascript", framework := none } =
      Except.error ("Test generation failed: " ++ noneLowerError) :=
  generate_tests_framework_none
    { code := "function foo(x)", language := "javascript", framework := none } rfl

/-- Claim C2: the classifier is first-match-wins over the ordered,
case-insensitive substring rules `undefined`, `timeout`,
`assertion`/`expected` against the full message, with `Unknown` as the
fallback; only the `undefined` rule yields severity `high`.  (For the empty
message the Python `or` default substitutes `Unknown error`, which matches
none of the keywords, so the characterization still holds.) -/
theorem classify_rule_order (msg : String) :
    (classify (some msg)).rootCause =
        (if pyIn "undefined" (pyLower msg) then "Undefined variable or function"
         else if pyIn "timeout" (pyLower msg) then "Test timeout"
         else if pyIn "assertion" (pyLower msg) || pyIn "expected" (pyLower msg) then
           "Assertion failure"
         else "Unknown")
      ∧ (classify (some msg)).severity =
        (if pyIn "undefined" (pyLower msg) then "high" else "medium") := by
  by_cases h : msg = ""
  · subst h; decide
  · simp only [classify, if_neg h]
    constructor
    · split_ifs <;> rfl
    · split_ifs <;> rfl

/-- Claim C7 as stated is false: for the empty (but present) error message,
the Python `or` default replaces it with `Unknown error`, so the analysis
field is not the prefix followed by the first 200 characters of the message. -/
theorem classify_empty_message_cex :
    (classify (some "")).analysis = "Analysis of test failure: Unknown error"
      ∧ (classify (some "")).analysis ≠ "Analysis of test failure: " ++ pyTake "" 200 := by
  constructor
  · decide
  · decide

/-- Claim C7 (amended): for every non-empty error message, the analysis
field is `Analysis of test failure: ` followed by the first 200 characters
of the message; the empty or absent message is first replaced by the
literal `Unknown error`. -/
theorem classify_analysis_truncates (msg : String) (h : msg ≠ "") :
    (classify (some msg)).analysis = "Analysis of test failure: " ++ pyTake msg 200 := by
  simp only [classify, if_neg h]
  split_ifs <;> rfl

/-- Witness for `classify_analysis_truncates`. -/
theorem classify_analysis_truncates_witness :
    (classify (some "boom")).analysis = "Analysis of test failure: boom" := by
  have h := classify_analysis_truncates "boom" (by decide)
  rw [h]
  decide

/-- Claim C8: with the error message absent the classifier behaves exactly
as on the literal message `Unknown error`, landing in the Unknown branch. -/
theorem classify_absent_message :
    classify none = classify (some "Unknown error")
      ∧ (classify none).rootCause = "Unknown"
      ∧ (classify none).severity = "medium"
      ∧ (classify none).analysis = "Analysis of test failure: Unknown error" := by
  refine ⟨?_, ?_, ?_, ?_⟩ <;> decide

/-- Claim C9: on every input the severity field of the classifier is one of the closed
set low/medium/high and exactly 3 suggested fixes are returned, in each of
the four branches. -/
theorem classify_invariants (errorMessage : Option String) :
    (classify errorMessage).severity ∈ (["low", "medium", "high"] : List String)
      ∧ (classify errorMessage).suggestedFixes.length = 3 := by
  cases errorMessage with
  | none => decide
  | some s =>
    simp only [classify]
    split_ifs <;> simp
